import Mathlib

/-!
Shallow embedding of the campus complaint-management backend
(`src/app/routes.py`) and proofs about its route handlers and its
knowledge-base loader.

External collaborators are modelled as oracles passed explicitly:
the Gemini client is an `AiEnv` (folder contents, per-file upload
outcome, generation outcome), and each database call site gets an
explicit failure slot (`none` = the call succeeds, `some msg` = the
call raises an exception carrying `msg`).  A handler's outcome is
either a returned HTTP status/body pair together with the database
state after the call, or an exception that escaped the handler.
-/

/-- An opaque reference returned by the external file-upload call
(`genai.upload_file`). -/
structure FileHandle where
  name : String
deriving DecidableEq, Repr

/-- The process-wide mutable state of the knowledge base: the global
`knowledge_base` list of `routes.py`. -/
structure KBState where
  kb : List FileHandle
deriving DecidableEq, Repr

/-- Observable effects of one `load_college_data` call: whether the folder
was scanned, and which file paths were passed to the external upload call
(attempts, successful or not). -/
structure LoadTrace where
  scanned : Bool
  uploadCalls : List String
deriving DecidableEq, Repr

/-- Environment of the AI-facing code: truthiness of `Config.GEMINI_API_KEY`,
the document folder (`none` when `os.path.exists` is false, otherwise its
file list), the outcome of uploading a given file, and the outcome of the
prompt-completion call. -/
structure AiEnv where
  keyPresent : Bool
  folder : Option (List String)
  upload : String → Except String FileHandle
  genResult : Except String String

/-- Boolean suffix test on strings, used to model which files the glob
patterns `*.pdf`, `*.jpg`, ... match. -/
def strEndsWith (f ext : String) : Bool :=
  ext.data == f.data.drop (f.data.length - ext.data.length)

/-- The fixed extension list of `load_college_data`. -/
def extensions : List String :=
  [".pdf", ".jpg", ".jpeg", ".png", ".txt"]

/-- The file list produced by the glob loop of `load_college_data`:
for each extension in order, all folder files with that extension. -/
def matchedFiles (files : List String) : List String :=
  extensions.foldl (fun acc ext => acc ++ files.filter (fun f => strEndsWith f ext)) []

/-- The per-file upload loop of `load_college_data`: each file is passed to
the external upload call; on success the returned handle is appended to the
accumulator, on failure the error is logged and the file is skipped. -/
def uploadLoop (up : String → Except String FileHandle)
    (fs : List String) (acc : List FileHandle) : List FileHandle :=
  match fs with
  | [] => acc
  | f :: rest =>
    match up f with
    | .ok h => uploadLoop up rest (acc ++ [h])
    | .error _ => uploadLoop up rest acc

/-- Embedding of `load_college_data` (`routes.py`): if `knowledge_base` is
already non-empty, return immediately; otherwise scan the folder, and if it
exists and contains matching files, attempt to upload each one, appending
the successful handles.  The returned trace records the scan and the upload
attempts. -/
def load_college_data (env : AiEnv) (s : KBState) : KBState × LoadTrace :=
  if s.kb.length > 0 then (s, ⟨false, []⟩)
  else
    match env.folder with
    | none => (s, ⟨true, []⟩)
    | some files =>
      let fs := matchedFiles files
      if fs = [] then (s, ⟨true, []⟩)
      else (⟨uploadLoop env.upload fs s.kb⟩, ⟨true, fs⟩)

/-- One observable interaction of a handler with the external AI service. -/
inductive AiCall where
  | uploadCall (path : String)
  | modelConstruct
  | generateCall
deriving DecidableEq, Repr

/-- Response body of the `ask_ai` handler. -/
inductive AskBody where
  | answer (s : String)
  | err (s : String)
deriving DecidableEq, Repr

/-- Embedding of the `ask_ai` handler (`POST /api/ask-ai`): inside the try
block it first checks the API key and returns 500 with a fixed message when
it is unset; otherwise it lazily populates the knowledge base, constructs
the model, and issues the generation call, whose failure is caught and
echoed as a 500.  The result carries the HTTP outcome, the knowledge-base
state after the call, and the list of AI-service interactions. -/
def ask_ai (env : AiEnv) (question : Option String) (s : KBState) :
    (Nat × AskBody) × KBState × List AiCall :=
  if env.keyPresent = false then ((500, .err "Gemini API Key missing"), s, [])
  else
    let r := if s.kb.isEmpty then load_college_data env s else (s, ⟨false, []⟩)
    let calls := r.2.uploadCalls.map AiCall.uploadCall ++ [AiCall.modelConstruct, AiCall.generateCall]
    match env.genResult with
    | .ok text => ((200, .answer text), r.1, calls)
    | .error m => ((500, .err m), r.1, calls)

/-- A row of the external `students` table; columns the routes touch.
Column values are nullable (`none` models SQL null / absent JSON field). -/
structure StudentRow where
  id : String
  full_name : Option String
  email : Option String
  department : Option String
  reg_id : Option String
deriving DecidableEq, Repr

/-- A row of the external `faculty` table. -/
structure FacultyRow where
  id : String
  full_name : Option String
  email : Option String
  department : Option String
  phone : Option String
deriving DecidableEq, Repr

/-- A row of the external `complaints` table.  The `id` is generated by the
database on insert; here inserts assign the next fresh index. -/
structure ComplaintRow where
  id : Nat
  student_id : Option String
  faculty_email : Option String
  faculty_id : Option String
  description : Option String
  status : Option String
  created_at : Option String
deriving DecidableEq, Repr

/-- A row of the external `complaint_responses` table. -/
structure ResponseRow where
  complaint_id : Option Nat
  faculty_id : Option String
  response_message : Option String
deriving DecidableEq, Repr

/-- The state of the external database: the four tables the routes use. -/
structure DB where
  students : List StudentRow
  faculty : List FacultyRow
  complaints : List ComplaintRow
  complaint_responses : List ResponseRow
deriving DecidableEq, Repr

/-- The formatted item of the student complaint-history handler:
question, answer, status and date taken from a complaint row and its
first joined response. -/
structure ComplaintItem where
  question : Option String
  answer : Option String
  status : Option String
  date : Option String
deriving DecidableEq, Repr

/-- The student columns the faculty complaint-list join requests,
`students(full_name, student_reg_no)`. -/
structure StudentInfo where
  full_name : Option String
  student_reg_no : Option String
deriving DecidableEq, Repr

/-- A row of the faculty complaint list: the complaint's columns plus the
joined student info (`none` when the student row is absent). -/
structure FacultyComplaintRow where
  complaint : ComplaintRow
  students : Option StudentInfo
deriving DecidableEq, Repr

/-- Response bodies the database-backed handlers can return. -/
inductive RouteBody where
  | msg (s : String)
  | err (s : String)
  | studentRow (r : StudentRow)
  | facultyRow (r : FacultyRow)
  | complaintItems (items : List ComplaintItem)
  | joinedComplaints (rows : List FacultyComplaintRow)
deriving DecidableEq, Repr

/-- Outcome of a database-backed handler: either an HTTP status and body
returned to the client together with the database state after the call, or
an exception that escaped the handler uncaught (no JSON error response is
produced in that case; the framework's generic error page is served). -/
inductive DbResult where
  | ok (status : Nat) (body : RouteBody) (db : DB)
  | raised (msg : String)
deriving DecidableEq, Repr

/-- Rendering of an optional string inside a Python f-string
(`None` when the value is absent). -/
def optionText : Option String → String
  | some s => s
  | none => "None"

/-- A single-quote character as a one-character string. -/
def quoteMark : String := String.mk [Char.ofNat 39]

/-- The 404 message of `submit_complaint` for an unknown faculty email. -/
def facultyNotFoundMsg (e : Option String) : String :=
  "Faculty with email " ++ quoteMark ++ optionText e ++ quoteMark ++ " not found."

/-- The filter the faculty lookup of `submit_complaint` applies:
`eq('email', faculty_email)`. -/
def facultyEmailMatch (e : Option String) (r : FacultyRow) : Bool :=
  r.email == e

/-- Body of `POST /api/submit-complaint` (fields read via `data.get`). -/
structure SubmitReq where
  student_id : Option String
  faculty_email : Option String
  description : Option String
deriving DecidableEq, Repr

/-- Failure oracle for the two database calls of `submit_complaint`:
the faculty select (outside the try block) and the complaint insert
(inside it). -/
structure SubmitFail where
  selectFail : Option String
  insertFail : Option String
deriving DecidableEq, Repr

/-- The complaint row `submit_complaint` inserts: request fields plus the
looked-up faculty id and the fixed initial status `"Pending"`. -/
def mkComplaint (req : SubmitReq) (fid : String) (newId : Nat) : ComplaintRow :=
  { id := newId
    student_id := req.student_id
    faculty_email := req.faculty_email
    faculty_id := some fid
    description := req.description
    status := some "Pending"
    created_at := none }

/-- Embedding of the `submit_complaint` handler (`POST /api/submit-complaint`).
The faculty select runs before the try block, so its exception escapes the
handler; an empty select result yields 404 with no insert; otherwise the
complaint is inserted with the first matching faculty row's id, inside the
try block that maps an insert exception to a 500 with the raw message. -/
def submit_complaint (req : SubmitReq) (db : DB) (f : SubmitFail) : DbResult :=
  match f.selectFail with
  | some m => .raised m
  | none =>
    match db.faculty.filter (facultyEmailMatch req.faculty_email) with
    | [] => .ok 404 (.err (facultyNotFoundMsg req.faculty_email)) db
    | fac :: _ =>
      match f.insertFail with
      | some m => .ok 500 (.err m) db
      | none =>
        .ok 201 (.msg "Complaint sent!")
          { db with complaints := db.complaints ++ [mkComplaint req fac.id db.complaints.length] }

/-- Body of `POST /api/faculty/reply`. -/
structure ReplyReq where
  complaint_id : Option Nat
  faculty_id : Option String
  response_message : Option String
deriving DecidableEq, Repr

/-- Failure oracle for the two database writes of `faculty_reply`:
the response insert and the status update, both inside the try block. -/
structure ReplyFail where
  insertFail : Option String
  updateFail : Option String
deriving DecidableEq, Repr

/-- Embedding of the `faculty_reply` handler (`POST /api/faculty/reply`):
insert a `complaint_responses` row, then update every `complaints` row
whose id equals the given `complaint_id` to the fixed status `"Resolved"`.
Either call raising is caught and echoed as a 500; a failure between the
two leaves the response row inserted but the status unchanged. -/
def faculty_reply (req : ReplyReq) (db : DB) (f : ReplyFail) : DbResult :=
  match f.insertFail with
  | some m => .ok 500 (.err m) db
  | none =>
    let db1 := { db with complaint_responses := db.complaint_responses ++
      [{ complaint_id := req.complaint_id
         faculty_id := req.faculty_id
         response_message := req.response_message }] }
    match f.updateFail with
    | some m => .ok 500 (.err m) db1
    | none =>
      let db2 := { db1 with complaints := db1.complaints.map (fun c =>
        if some c.id = req.complaint_id then { c with status := some "Resolved" } else c) }
      .ok 201 (.msg "Reply sent!") db2

/-- The filter of the profile selects: `eq('id', user_id)`. -/
def idMatches (uid rid : String) : Bool := rid == uid

/-- Embedding of the `get_student_profile` handler
(`GET /api/student/profile/<user_id>`): select all students with the given
id; return the first row with 200 if any, else 404.  A select exception is
caught and echoed as a 500. -/
def get_student_profile (uid : String) (db : DB) (fail : Option String) : DbResult :=
  match fail with
  | some m => .ok 500 (.err m) db
  | none =>
    match db.students.filter (fun r => idMatches uid r.id) with
    | [] => .ok 404 (.err "Profile not found") db
    | r :: _ => .ok 200 (.studentRow r) db

/-- Embedding of the `get_faculty_profile` handler
(`GET /api/faculty/profile/<user_id>`), analogous to the student one. -/
def get_faculty_profile (uid : String) (db : DB) (fail : Option String) : DbResult :=
  match fail with
  | some m => .ok 500 (.err m) db
  | none =>
    match db.faculty.filter (fun r => idMatches uid r.id) with
    | [] => .ok 404 (.err "Profile not found") db
    | r :: _ => .ok 200 (.facultyRow r) db

/-- Body of `PUT /api/student/profile/<user_id>` (fields read via
`data.get`, so an absent field is `None`). -/
structure UpdateStudentReq where
  name : Option String
  email : Option String
  department : Option String
deriving DecidableEq, Repr

/-- Body of `PUT /api/faculty/profile/<user_id>`. -/
structure UpdateFacultyReq where
  name : Option String
  email : Option String
  department : Option String
  phone : Option String
deriving DecidableEq, Repr

/-- Embedding of the `update_student_profile` handler: build an update
payload holding all three columns (absent request fields become null) and
apply it to every student row whose id matches. -/
def update_student_profile (uid : String) (req : UpdateStudentReq) (db : DB)
    (fail : Option String) : DbResult :=
  match fail with
  | some m => .ok 500 (.err m) db
  | none =>
    let db2 := { db with students := db.students.map (fun r =>
      if r.id = uid then
        { r with full_name := req.name, email := req.email, department := req.department }
      else r) }
    .ok 200 (.msg "Updated!") db2

/-- Embedding of the `update_faculty_profile` handler: same as the student
one, with the additional `phone` column. -/
def update_faculty_profile (uid : String) (req : UpdateFacultyReq) (db : DB)
    (fail : Option String) : DbResult :=
  match fail with
  | some m => .ok 500 (.err m) db
  | none =>
    let db2 := { db with faculty := db.faculty.map (fun r =>
      if r.id = uid then
        { r with full_name := req.name, email := req.email
                 department := req.department, phone := req.phone }
      else r) }
    .ok 200 (.msg "Updated!") db2

/-- Body of `POST /api/register-student`.  The `id` is the auth UUID the
client supplies with every registration; a request without one is rejected
by the database's not-null key constraint, which the model surfaces through
the handler's failure slot, so the success path carries a concrete id.  The
remaining fields are read via `data.get` and may be absent. -/
structure RegisterStudentReq where
  id : String
  email : Option String
  full_name : Option String
  department : Option String
  student_reg_no : Option String
deriving DecidableEq, Repr

/-- Body of `POST /api/register-faculty`, with the same id convention as
the student registration. -/
structure RegisterFacultyReq where
  id : String
  full_name : Option String
  email : Option String
  department : Option String
deriving DecidableEq, Repr

/-- Embedding of the `register_student` handler: insert one student row,
mapping the client's `student_reg_no` onto the `reg_id` column; the insert
raising is caught and echoed as a 500. -/
def register_student (req : RegisterStudentReq) (db : DB) (fail : Option String) : DbResult :=
  match fail with
  | some m => .ok 500 (.err m) db
  | none =>
    .ok 201 (.msg "Student created successfully!")
      { db with students := db.students ++
          [{ id := req.id
             full_name := req.full_name
             email := req.email
             department := req.department
             reg_id := req.student_reg_no }] }

/-- Embedding of the `register_faculty` handler: insert one faculty row
(the `phone` column is not part of the payload, so it stays null); the
insert raising is caught and echoed as a 500. -/
def register_faculty (req : RegisterFacultyReq) (db : DB) (fail : Option String) : DbResult :=
  match fail with
  | some m => .ok 500 (.err m) db
  | none =>
    .ok 201 (.msg "Faculty profile created!")
      { db with faculty := db.faculty ++
          [{ id := req.id
             full_name := req.full_name
             email := req.email
             department := req.department
             phone := none }] }

/-- The first joined response of a complaint, from the nested select
`complaint_responses(response_message)` (joined on the complaint id). -/
def firstResponseFor (db : DB) (cid : Nat) : Option ResponseRow :=
  (db.complaint_responses.filter (fun r => r.complaint_id == some cid)).head?

/-- The formatting loop of `get_my_complaints`: the answer defaults to the
waiting message and is replaced by the first response's message (itself
possibly null) when a response row exists. -/
def formatComplaint (db : DB) (c : ComplaintRow) : ComplaintItem :=
  { question := c.description
    answer :=
      match firstResponseFor db c.id with
      | some r => r.response_message
      | none => some "Waiting for response..."
    status := c.status
    date := c.created_at }

/-- Embedding of the `get_my_complaints` handler
(`GET /api/my-complaints/<student_id>`): select the student's complaints
with their joined responses and return the formatted list with 200; the
select raising is caught and echoed as a 500. -/
def get_my_complaints (sid : String) (db : DB) (fail : Option String) : DbResult :=
  match fail with
  | some m => .ok 500 (.err m) db
  | none =>
    .ok 200 (.complaintItems
      ((db.complaints.filter (fun c => c.student_id == some sid)).map (formatComplaint db))) db

/-- Descending comparison on the `created_at` column (null sorts last),
modelling `order('created_at', desc=True)`. -/
def createdGe (a b : ComplaintRow) : Bool :=
  decide (b.created_at.getD "" ≤ a.created_at.getD "")

/-- Insertion step of the date-descending sort. -/
def insertByDateDesc (c : ComplaintRow) : List ComplaintRow → List ComplaintRow
  | [] => [c]
  | x :: xs => if createdGe c x then c :: x :: xs else x :: insertByDateDesc c xs

/-- Date-descending sort of a complaint list. -/
def sortByDateDesc (l : List ComplaintRow) : List ComplaintRow :=
  l.foldr insertByDateDesc []

/-- The joined student columns of the faculty complaint list: the first
student row matching the complaint's `student_id` (the register handler
stores the client's `student_reg_no` in the `reg_id` column, which the join
reads back). -/
def studentInfoFor (db : DB) (sid : Option String) : Option StudentInfo :=
  ((db.students.filter (fun s => some s.id == sid)).head?).map
    (fun s => ⟨s.full_name, s.reg_id⟩)

/-- Embedding of the `get_faculty_complaints` handler
(`GET /api/faculty/complaints/<faculty_id>`): select the faculty member's
complaints joined with student info, newest first, and return them with
200; the select raising is caught and echoed as a 500. -/
def get_faculty_complaints (fid : String) (db : DB) (fail : Option String) : DbResult :=
  match fail with
  | some m => .ok 500 (.err m) db
  | none =>
    .ok 200 (.joinedComplaints
      ((sortByDateDesc (db.complaints.filter (fun c => c.faculty_id == some fid))).map
        (fun c => ⟨c, studentInfoFor db c.student_id⟩))) db

/-- An environment whose document folder holds one text file whose upload
always fails. -/
def envUploadFails : AiEnv :=
  { keyPresent := true
    folder := some ["a.txt"]
    upload := fun _ => .error "boom"
    genResult := .ok "hi" }

/-- An environment whose document folder holds one text file whose upload
succeeds. -/
def envUploadOk : AiEnv :=
  { keyPresent := true
    folder := some ["a.txt"]
    upload := fun p => .ok ⟨p⟩
    genResult := .ok "hi" }

/-- An environment with two documents where the first upload fails and the
second succeeds. -/
def envUploadMixed : AiEnv :=
  { keyPresent := true
    folder := some ["a.pdf", "b.txt"]
    upload := fun p => if p = "a.pdf" then .error "boom" else .ok ⟨p⟩
    genResult := .ok "hi" }

/-- An environment whose API key is unset. -/
def envNoKey : AiEnv :=
  { keyPresent := false
    folder := some ["a.txt"]
    upload := fun p => .ok ⟨p⟩
    genResult := .ok "hi" }

/-- An environment with a key but whose generation call raises. -/
def envGenFails : AiEnv :=
  { keyPresent := true
    folder := none
    upload := fun p => .ok ⟨p⟩
    genResult := .error "gen down" }

/-- A small concrete database: one student, one faculty member, one pending
complaint addressed to that faculty member. -/
def dbSample : DB :=
  { students := [⟨"stu-1", some "Old Name", some "old@x", some "CSE", some "R100"⟩]
    faculty := [⟨"fac-1", some "Dr. A", some "a@x", some "CSE", some "123"⟩]
    complaints := [⟨0, some "stu-1", some "a@x", some "fac-1", some "mess food", some "Pending",
                    some "2025-01-01"⟩]
    complaint_responses := [] }

/-- A complaint request addressed to the faculty email present in
`dbSample`. -/
def reqKnown : SubmitReq := ⟨some "stu-1", some "a@x", some "hostel wifi"⟩

/-- A complaint request addressed to an email absent from `dbSample`. -/
def reqUnknown : SubmitReq := ⟨some "stu-1", some "zz@x", some "hostel wifi"⟩

/-- A reply request for the complaint present in `dbSample`. -/
def replyReqSample : ReplyReq := ⟨some 0, some "fac-1", some "fixed"⟩

/-- A student profile update whose body carries no field at all. -/
def updStudentEmpty : UpdateStudentReq := ⟨none, none, none⟩

/-- A faculty profile update whose body carries no field at all. -/
def updFacultyEmpty : UpdateFacultyReq := ⟨none, none, none, none⟩

/-- A concrete student registration request. -/
def regStudentSample : RegisterStudentReq :=
  ⟨"stu-2", some "new@x", some "New Student", some "ECE", some "R200"⟩

/-- A concrete faculty registration request. -/
def regFacultySample : RegisterFacultyReq :=
  ⟨"fac-2", some "Dr. B", some "b@x", some "ECE"⟩

theorem uploadLoop_eq_append (up : String → Except String FileHandle)
    (fs : List String) (acc : List FileHandle) :
    uploadLoop up fs acc = acc ++ fs.filterMap (fun f => (up f).toOption) := by
  induction fs generalizing acc with
  | nil => simp [uploadLoop]
  | cons f rest ih =>
    cases h : up f with
    | ok v => simp [uploadLoop, h, ih, Except.toOption]
    | error e => simp [uploadLoop, h, ih, Except.toOption]

theorem load_noop_of_nonempty (env : AiEnv) (t : KBState) (h : t.kb ≠ []) :
    load_college_data env t = (t, ⟨false, []⟩) := by
  have hl : t.kb.length > 0 := List.length_pos.mpr h
  simp [load_college_data, hl]

theorem load_kb_extends (env : AiEnv) (s : KBState) :
    ∃ t, ((load_college_data env s).1).kb = s.kb ++ t := by
  by_cases h : s.kb.length > 0
  · exact ⟨[], by simp [load_college_data, h]⟩
  · cases hf : env.folder with
    | none => exact ⟨[], by simp [load_college_data, h, hf]⟩
    | some files =>
      by_cases hm : matchedFiles files = []
      · exact ⟨[], by simp [load_college_data, h, hf, hm]⟩
      · refine ⟨(matchedFiles files).filterMap (fun f => (env.upload f).toOption), ?_⟩
        simp [load_college_data, h, hf, hm, uploadLoop_eq_append]

theorem ask_kb_extends (env : AiEnv) (q : Option String) (s : KBState) :
    ∃ t, ((ask_ai env q s).2.1).kb = s.kb ++ t := by
  by_cases hk : env.keyPresent = false
  · exact ⟨[], by simp [ask_ai, hk]⟩
  · by_cases he : s.kb.isEmpty
    · obtain ⟨t, ht⟩ := load_kb_extends env s
      refine ⟨t, ?_⟩
      cases hg : env.genResult with
      | ok v => simpa [ask_ai, hk, he, hg] using ht
      | error m => simpa [ask_ai, hk, he, hg] using ht
    · refine ⟨[], ?_⟩
      cases hg : env.genResult with
      | ok v => simp [ask_ai, hk, he, hg]
      | error m => simp [ask_ai, hk, he, hg]

/-- Claim C1, counterexample: it is not true that for every process state a
second `load_college_data` call returns immediately without scanning or
uploading.  If the only document's upload fails, the first call leaves the
knowledge base empty, and the second call scans the folder again and issues
the external upload call again. -/
theorem load_twice_reuploads_after_failed_first_load :
    (load_college_data envUploadFails (load_college_data envUploadFails ⟨[]⟩).1).2.uploadCalls
      = ["a.txt"]
    ∧ (load_college_data envUploadFails (load_college_data envUploadFails ⟨[]⟩).1).2.scanned
      = true := by
  decide

/-- Claim C1, amended: whenever the first `load_college_data` call leaves
the handle sequence non-empty (at least one upload succeeded), the second
call returns immediately: it does not scan, performs no upload call, and
leaves the state unchanged. -/
theorem load_second_call_noop_of_first_populated (env : AiEnv) (s : KBState)
    (h : ((load_college_data env s).1).kb ≠ []) :
    load_college_data env (load_college_data env s).1
      = ((load_college_data env s).1, ⟨false, []⟩) :=
  load_noop_of_nonempty env _ h

/-- Claim C1, witness for the amended theorem at a concrete environment
whose single upload succeeds. -/
theorem load_second_call_noop_example :
    ((load_college_data envUploadOk ⟨[]⟩).1).kb ≠ []
    ∧ load_college_data envUploadOk (load_college_data envUploadOk ⟨[]⟩).1
        = ((load_college_data envUploadOk ⟨[]⟩).1, ⟨false, []⟩) :=
  ⟨by decide, load_second_call_noop_of_first_populated envUploadOk ⟨[]⟩ (by decide)⟩

/-- Claim C2: a complaint submission whose faculty email matches no faculty
row returns 404 with the not-found message, and the database is unchanged
(no insert is attempted, whatever the insert oracle would have done). -/
theorem submit_unknown_faculty_404_no_insert (req : SubmitReq) (db : DB)
    (insF : Option String)
    (h : ∀ r ∈ db.faculty, r.email ≠ req.faculty_email) :
    submit_complaint req db ⟨none, insF⟩
      = .ok 404 (.err (facultyNotFoundMsg req.faculty_email)) db := by
  have hf : db.faculty.filter (facultyEmailMatch req.faculty_email) = [] := by
    rw [List.filter_eq_nil_iff]
    intro r hr
    simpa [facultyEmailMatch] using h r hr
  simp [submit_complaint, hf]

/-- Claim C2, witness at a concrete database and unknown email. -/
theorem submit_unknown_faculty_404_example :
    submit_complaint reqUnknown dbSample ⟨none, none⟩
      = .ok 404 (.err (facultyNotFoundMsg (some "zz@x"))) dbSample :=
  submit_unknown_faculty_404_no_insert reqUnknown dbSample none (by decide)

/-- Claim C3: a complaint submission whose faculty email has a match, with
a succeeding insert, returns 201, and the inserted complaint row's
`faculty_id` is the id of the first matching faculty row. -/
theorem submit_known_faculty_201_faculty_id (req : SubmitReq) (db : DB)
    (fac : FacultyRow) (rest : List FacultyRow)
    (h : db.faculty.filter (facultyEmailMatch req.faculty_email) = fac :: rest) :
    submit_complaint req db ⟨none, none⟩
      = .ok 201 (.msg "Complaint sent!")
          { db with complaints :=
              db.complaints ++ [mkComplaint req fac.id db.complaints.length] }
    ∧ (mkComplaint req fac.id db.complaints.length).faculty_id = some fac.id := by
  constructor
  · simp [submit_complaint, h]
  · rfl

/-- Claim C3, witness at the concrete sample database. -/
theorem submit_known_faculty_201_example :
    submit_complaint reqKnown dbSample ⟨none, none⟩
      = .ok 201 (.msg "Complaint sent!")
          { dbSample with complaints := dbSample.complaints ++ [mkComplaint reqKnown "fac-1" 1] }
    ∧ (mkComplaint reqKnown "fac-1" 1).faculty_id = some "fac-1" :=
  submit_known_faculty_201_faculty_id reqKnown dbSample
    ⟨"fac-1", some "Dr. A", some "a@x", some "CSE", some "123"⟩ [] (by decide)

/-- Claim C4: after a faculty reply whose two database writes succeed, the
handler returns 201 and every complaint row carrying the request's
complaint id has status `"Resolved"`, regardless of its prior status. -/
theorem reply_sets_status_resolved (req : ReplyReq) (db : DB) :
    ∃ db2, faculty_reply req db ⟨none, none⟩ = .ok 201 (.msg "Reply sent!") db2
      ∧ ∀ c ∈ db2.complaints, some c.id = req.complaint_id → c.status = some "Resolved" := by
  refine ⟨{ db with
      complaint_responses := db.complaint_responses ++
        [⟨req.complaint_id, req.faculty_id, req.response_message⟩]
      complaints := db.complaints.map (fun c =>
        if some c.id = req.complaint_id then { c with status := some "Resolved" } else c) },
    rfl, ?_⟩
  intro c hc hid
  obtain ⟨a, _, rfl⟩ := List.mem_map.mp hc
  by_cases h : some a.id = req.complaint_id
  · simp [h]
  · simp only [if_neg h] at hid
    exact absurd hid h

/-- Claim C4, witness at the concrete sample database, whose complaint
starts out `"Pending"`. -/
theorem reply_sets_status_resolved_example :
    ∃ db2, faculty_reply replyReqSample dbSample ⟨none, none⟩ = .ok 201 (.msg "Reply sent!") db2
      ∧ ∀ c ∈ db2.complaints, some c.id = replyReqSample.complaint_id →
          c.status = some "Resolved" :=
  reply_sets_status_resolved replyReqSample dbSample

/-- Claim C5: when the API key is unset, `ask_ai` returns 500 with the fixed
message, leaves the knowledge base untouched, and performs no AI-service
interaction at all (no upload, no model construction, no generation). -/
theorem ask_ai_no_key_500_no_calls (env : AiEnv) (q : Option String) (s : KBState)
    (h : env.keyPresent = false) :
    ask_ai env q s = ((500, .err "Gemini API Key missing"), s, []) := by
  simp [ask_ai, h]

/-- Claim C5, witness at a concrete keyless environment. -/
theorem ask_ai_no_key_500_example :
    ask_ai envNoKey (some "mess menu") ⟨[]⟩ = ((500, .err "Gemini API Key missing"), ⟨[]⟩, []) :=
  ask_ai_no_key_500_no_calls envNoKey (some "mess menu") ⟨[]⟩ rfl

/-- Claim C6: for both profile GET handlers, an id matching no row yields
404 with the database untouched, and an id with a match yields 200 carrying
exactly the first matching row, whose id is the requested one. -/
theorem profile_get_404_or_matching_row (uid : String) (db : DB) :
    ((∀ r ∈ db.students, r.id ≠ uid) →
      get_student_profile uid db none = .ok 404 (.err "Profile not found") db)
    ∧ (∀ r rest, db.students.filter (fun x => idMatches uid x.id) = r :: rest →
        get_student_profile uid db none = .ok 200 (.studentRow r) db ∧ r.id = uid)
    ∧ ((∀ r ∈ db.faculty, r.id ≠ uid) →
      get_faculty_profile uid db none = .ok 404 (.err "Profile not found") db)
    ∧ (∀ r rest, db.faculty.filter (fun x => idMatches uid x.id) = r :: rest →
        get_faculty_profile uid db none = .ok 200 (.facultyRow r) db ∧ r.id = uid) := by
  refine ⟨?_, ?_, ?_, ?_⟩
  · intro h
    have hf : db.students.filter (fun x => idMatches uid x.id) = [] := by
      rw [List.filter_eq_nil_iff]
      intro r hr
      simpa [idMatches] using h r hr
    simp [get_student_profile, hf]
  · intro r rest h
    refine ⟨by simp [get_student_profile, h], ?_⟩
    have hm : r ∈ db.students.filter (fun x => idMatches uid x.id) := by
      rw [h]; exact List.mem_cons_self r rest
    simpa [idMatches] using (List.mem_filter.mp hm).2
  · intro h
    have hf : db.faculty.filter (fun x => idMatches uid x.id) = [] := by
      rw [List.filter_eq_nil_iff]
      intro r hr
      simpa [idMatches] using h r hr
    simp [get_faculty_profile, hf]
  · intro r rest h
    refine ⟨by simp [get_faculty_profile, h], ?_⟩
    have hm : r ∈ db.faculty.filter (fun x => idMatches uid x.id) := by
      rw [h]; exact List.mem_cons_self r rest
    simpa [idMatches] using (List.mem_filter.mp hm).2

/-- Claim C6, witness: a missing id yields 404 and an existing one yields
200 with the matching row, on the concrete sample database. -/
theorem profile_get_example :
    get_student_profile "nope" dbSample none = .ok 404 (.err "Profile not found") dbSample
    ∧ get_student_profile "stu-1" dbSample none
        = .ok 200 (.studentRow ⟨"stu-1", some "Old Name", some "old@x", some "CSE", some "R100"⟩)
            dbSample :=
  ⟨(profile_get_404_or_matching_row "nope" dbSample).1 (by decide),
   ((profile_get_404_or_matching_row "stu-1" dbSample).2.1
      ⟨"stu-1", some "Old Name", some "old@x", some "CSE", some "R100"⟩ [] (by decide)).1⟩

/-- Claim C7, counterexample: not every raising external call yields a 500
JSON error response.  The faculty lookup of `submit_complaint` runs before
the try block, so when that select raises, the exception escapes the
handler instead of being turned into a 500 body echoing the message. -/
theorem submit_select_raises_uncaught :
    submit_complaint reqKnown dbSample ⟨some "connection reset", none⟩
      = .raised "connection reset" := rfl

/-- Claim C7, amended: every external-service call that raises inside a
handler's try block yields 500 with the raw message echoed in the error
field — covering every in-try call site of every embedded handler: the
complaint insert, both writes of `faculty_reply` (an update failure keeps
the already-inserted response row, the documented gap), the generation
call of `ask_ai`, both registration inserts, both complaint-list selects,
and the selects and updates of the four profile handlers.  The pre-try
faculty select of `submit_complaint` is the exception. -/
theorem try_block_failures_500_raw_message (msg : String)
    (req : SubmitReq) (db : DB) (fac : FacultyRow) (rest : List FacultyRow)
    (hfac : db.faculty.filter (facultyEmailMatch req.faculty_email) = fac :: rest)
    (reqR : ReplyReq) (env : AiEnv) (q : Option String) (s : KBState)
    (hkey : env.keyPresent = true) (hgen : env.genResult = .error msg)
    (regS : RegisterStudentReq) (regF : RegisterFacultyReq)
    (sid fid uidS uidF : String) (updS : UpdateStudentReq) (updF : UpdateFacultyReq) :
    submit_complaint req db ⟨none, some msg⟩ = .ok 500 (.err msg) db
    ∧ faculty_reply reqR db ⟨some msg, none⟩ = .ok 500 (.err msg) db
    ∧ faculty_reply reqR db ⟨none, some msg⟩
        = .ok 500 (.err msg)
            { db with complaint_responses := db.complaint_responses ++
                [⟨reqR.complaint_id, reqR.faculty_id, reqR.response_message⟩] }
    ∧ (ask_ai env q s).1 = (500, .err msg)
    ∧ register_student regS db (some msg) = .ok 500 (.err msg) db
    ∧ register_faculty regF db (some msg) = .ok 500 (.err msg) db
    ∧ get_my_complaints sid db (some msg) = .ok 500 (.err msg) db
    ∧ get_faculty_complaints fid db (some msg) = .ok 500 (.err msg) db
    ∧ get_student_profile uidS db (some msg) = .ok 500 (.err msg) db
    ∧ get_faculty_profile uidF db (some msg) = .ok 500 (.err msg) db
    ∧ update_student_profile uidS updS db (some msg) = .ok 500 (.err msg) db
    ∧ update_faculty_profile uidF updF db (some msg) = .ok 500 (.err msg) db := by
  refine ⟨by simp [submit_complaint, hfac], rfl, rfl, ?_, rfl, rfl, rfl, rfl, rfl, rfl, rfl, rfl⟩
  by_cases he : s.kb.isEmpty
  · simp [ask_ai, hkey, he, hgen]
  · simp [ask_ai, hkey, he, hgen]

/-- Claim C7, witness for the amended theorem at concrete failures of every
in-try call site. -/
theorem try_block_failures_500_example :
    submit_complaint reqKnown dbSample ⟨none, some "gen down"⟩
      = .ok 500 (.err "gen down") dbSample
    ∧ faculty_reply replyReqSample dbSample ⟨some "gen down", none⟩
      = .ok 500 (.err "gen down") dbSample
    ∧ faculty_reply replyReqSample dbSample ⟨none, some "gen down"⟩
      = .ok 500 (.err "gen down")
          { dbSample with complaint_responses := dbSample.complaint_responses ++
              [⟨replyReqSample.complaint_id, replyReqSample.faculty_id,
                replyReqSample.response_message⟩] }
    ∧ (ask_ai envGenFails (some "q") ⟨[]⟩).1 = (500, .err "gen down")
    ∧ register_student regStudentSample dbSample (some "gen down")
      = .ok 500 (.err "gen down") dbSample
    ∧ register_faculty regFacultySample dbSample (some "gen down")
      = .ok 500 (.err "gen down") dbSample
    ∧ get_my_complaints "stu-1" dbSample (some "gen down")
      = .ok 500 (.err "gen down") dbSample
    ∧ get_faculty_complaints "fac-1" dbSample (some "gen down")
      = .ok 500 (.err "gen down") dbSample
    ∧ get_student_profile "stu-1" dbSample (some "gen down")
      = .ok 500 (.err "gen down") dbSample
    ∧ get_faculty_profile "fac-1" dbSample (some "gen down")
      = .ok 500 (.err "gen down") dbSample
    ∧ update_student_profile "stu-1" updStudentEmpty dbSample (some "gen down")
      = .ok 500 (.err "gen down") dbSample
    ∧ update_faculty_profile "fac-1" updFacultyEmpty dbSample (some "gen down")
      = .ok 500 (.err "gen down") dbSample :=
  try_block_failures_500_raw_message "gen down" reqKnown dbSample
    ⟨"fac-1", some "Dr. A", some "a@x", some "CSE", some "123"⟩ [] (by decide)
    replyReqSample envGenFails (some "q") ⟨[]⟩ rfl rfl
    regStudentSample regFacultySample "stu-1" "fac-1" "stu-1" "fac-1"
    updStudentEmpty updFacultyEmpty

/-- Claim C8: on a first load with an existing, non-empty folder, every
matched file is passed to the upload call (failures included), the
knowledge base collects exactly the handles of the successful uploads in
order, and the call completes normally — a per-file failure is skipped and
never aborts the remaining uploads or the overall call. -/
theorem per_file_failure_skipped_rest_uploaded (env : AiEnv) (s : KBState)
    (files : List String) (h0 : s.kb = []) (hf : env.folder = some files)
    (hne : matchedFiles files ≠ []) :
    load_college_data env s
      = (⟨(matchedFiles files).filterMap (fun f => (env.upload f).toOption)⟩,
         ⟨true, matchedFiles files⟩) := by
  have hl : ¬ s.kb.length > 0 := by simp [h0]
  simp [load_college_data, hl, hf, hne, uploadLoop_eq_append, h0]

/-- Claim C8, witness: with two documents where the first upload fails, the
second is still uploaded and the call returns normally. -/
theorem per_file_failure_skipped_example :
    load_college_data envUploadMixed ⟨[]⟩
      = (⟨[⟨"b.txt"⟩]⟩, ⟨true, ["a.pdf", "b.txt"]⟩) := by
  have h := per_file_failure_skipped_rest_uploaded envUploadMixed ⟨[]⟩
    ["a.pdf", "b.txt"] rfl rfl (by decide)
  exact h.trans (by decide)

/-- Claim C9: the knowledge-base operations only ever append — both
`load_college_data` and `ask_ai` extend the handle sequence by a (possibly
empty) suffix, so a non-empty sequence never becomes empty again. -/
theorem knowledge_base_monotone (env : AiEnv) (q : Option String) (s : KBState) :
    (∃ t, ((load_college_data env s).1).kb = s.kb ++ t)
    ∧ (∃ t, ((ask_ai env q s).2.1).kb = s.kb ++ t)
    ∧ (s.kb ≠ [] →
        ((load_college_data env s).1).kb ≠ [] ∧ ((ask_ai env q s).2.1).kb ≠ []) := by
  refine ⟨load_kb_extends env s, ask_kb_extends env q s, ?_⟩
  intro h
  constructor
  · obtain ⟨t, ht⟩ := load_kb_extends env s
    rw [ht]; simp [h]
  · obtain ⟨t, ht⟩ := ask_kb_extends env q s
    rw [ht]; simp [h]

/-- Claim C9, witness: a populated knowledge base stays populated across
both operations at a concrete environment. -/
theorem knowledge_base_monotone_example :
    ((load_college_data envUploadOk ⟨[⟨"a.txt"⟩]⟩).1).kb ≠ []
    ∧ ((ask_ai envUploadOk (some "q") ⟨[⟨"a.txt"⟩]⟩).2.1).kb ≠ [] :=
  (knowledge_base_monotone envUploadOk (some "q") ⟨[⟨"a.txt"⟩]⟩).2.2 (by decide)

/-- Claim C10: both profile PUT handlers write their full fixed column set
on every matched row — each stored column becomes exactly the request's
value for it, so a field absent from the body (`none`) is written as null
rather than left at its previous value. -/
theorem profile_update_writes_all_columns (uid : String)
    (reqS : UpdateStudentReq) (reqF : UpdateFacultyReq) (db : DB) :
    (∃ db2, update_student_profile uid reqS db none = .ok 200 (.msg "Updated!") db2
      ∧ ∀ r ∈ db2.students, r.id = uid →
          r.full_name = reqS.name ∧ r.email = reqS.email ∧ r.department = reqS.department)
    ∧ (∃ db2, update_faculty_profile uid reqF db none = .ok 200 (.msg "Updated!") db2
      ∧ ∀ r ∈ db2.faculty, r.id = uid →
          r.full_name = reqF.name ∧ r.email = reqF.email
            ∧ r.department = reqF.department ∧ r.phone = reqF.phone) := by
  constructor
  · refine ⟨{ db with students := db.students.map (fun r =>
        if r.id = uid then
          { r with full_name := reqS.name, email := reqS.email, department := reqS.department }
        else r) }, rfl, ?_⟩
    intro r hr hid
    obtain ⟨a, _, rfl⟩ := List.mem_map.mp hr
    by_cases h : a.id = uid
    · simp [h]
    · simp only [if_neg h] at hid
      exact absurd hid h
  · refine ⟨{ db with faculty := db.faculty.map (fun r =>
        if r.id = uid then
          { r with full_name := reqF.name, email := reqF.email
                   department := reqF.department, phone := reqF.phone }
        else r) }, rfl, ?_⟩
    intro r hr hid
    obtain ⟨a, _, rfl⟩ := List.mem_map.mp hr
    by_cases h : a.id = uid
    · simp [h]
    · simp only [if_neg h] at hid
      exact absurd hid h

/-- Claim C10, witness: an update whose body carries no field at all still
returns 200 and overwrites every column of the matched rows with null. -/
theorem profile_update_writes_all_columns_example :
    (∃ db2, update_student_profile "stu-1" updStudentEmpty dbSample none
        = .ok 200 (.msg "Updated!") db2
      ∧ ∀ r ∈ db2.students, r.id = "stu-1" →
          r.full_name = none ∧ r.email = none ∧ r.department = none)
    ∧ (∃ db2, update_faculty_profile "stu-1" updFacultyEmpty dbSample none
        = .ok 200 (.msg "Updated!") db2
      ∧ ∀ r ∈ db2.faculty, r.id = "stu-1" →
          r.full_name = none ∧ r.email = none ∧ r.department = none ∧ r.phone = none) :=
  profile_update_writes_all_columns "stu-1" updStudentEmpty updFacultyEmpty dbSample
